import Mathlib

/-!
Verification of `crates/gh-workflow-tailcall/src/workflow.rs`: the workflow
assembler that maps a flat feature-flag configuration to a GitHub workflow
(a job graph with steps, conditions, permissions and environment bindings).

The assembler itself (`Workflow::build_and_test`, the `From<Workflow> for
GHWorkflow` impl, `lint_and_fmt_fix_job`, `release_pr_job`, `release_job`)
is translated directly from the source.  The builder primitives it uses
(`Job`, `Step`, `Permissions`, `Toolchain`, `Cargo`, `Concurrency`,
`Event`, `Context`, `Env`, `RustFlags`, and `GHWorkflow` itself) live in
the sibling `gh-workflow` crate, which is not part of the sources here;
those are modelled from the specification of the Condition Builder, Step
Factory and Job Builder components (spec sections 4.1 to 4.3): fluent,
pure value accumulation that preserves step order, accumulates permission
grants, and records dependency references.
-/

namespace GhTailcall

/-- Modelled from the spec: an access level of the permission set
(`Level` in the gh-workflow crate, not under src/). -/
inductive Level where
  | read
  | write
deriving DecidableEq, Repr

/-- Modelled from the spec: the permission set, a mapping from resource scope
to access level (`Permissions` in the gh-workflow crate, not under src/).
Only the scopes the assembler touches are modelled. -/
structure Permissions where
  contents : Option Level := none
  pull_requests : Option Level := none
  packages : Option Level := none
deriving DecidableEq, Repr

def Permissions.default : Permissions := {}

def Permissions.setContents (p : Permissions) (l : Level) : Permissions :=
  { p with contents := some l }

def Permissions.setPullRequests (p : Permissions) (l : Level) : Permissions :=
  { p with pull_requests := some l }

def Permissions.setPackages (p : Permissions) (l : Level) : Permissions :=
  { p with packages := some l }

/-- Modelled from the spec: the toolchain-setup step of the Step Factory
(`Toolchain` in the gh-workflow crate, not under src/), parameterized by
which toolchain variants and auxiliary components are enabled. -/
structure Toolchain where
  stable : Bool := false
  nightly : Bool := false
  clippy : Bool := false
  fmt : Bool := false
deriving DecidableEq, Repr

def Toolchain.default : Toolchain := {}

def Toolchain.add_stable (t : Toolchain) : Toolchain := { t with stable := true }

def Toolchain.add_nightly (t : Toolchain) : Toolchain := { t with nightly := true }

def Toolchain.add_clippy (t : Toolchain) : Toolchain := { t with clippy := true }

def Toolchain.add_fmt (t : Toolchain) : Toolchain := { t with fmt := true }

/-- Modelled from the spec: a "run build-tool subcommand" step of the Step
Factory (`Cargo` in the gh-workflow crate, not under src/), carrying a
display name, a raw argument string and an optional nightly variant flag. -/
structure Cargo where
  cmd : String
  args : String := ""
  name : Option String := none
  nightly : Bool := false
deriving DecidableEq, Repr

def Cargo.new (c : String) : Cargo := { cmd := c }

def Cargo.setArgs (c : Cargo) (a : String) : Cargo := { c with args := a }

def Cargo.setName (c : Cargo) (n : String) : Cargo := { c with name := some n }

def Cargo.setNightly (c : Cargo) : Cargo := { c with nightly := true }

/-- Modelled from the spec: the release-plz action command
(`release_plz::Command` in the gh-workflow crate, not under src/). -/
inductive ReleaseCommand where
  | release
  | releasePR
deriving DecidableEq, Repr

/-- Modelled from the spec: an ordered unit-of-work descriptor produced by
the Step Factory (`Step` in the gh-workflow crate, not under src/):
checkout, toolchain setup, build-tool invocation, free-form scripted shell
step (`Step::run`), or a structured release-plz action step. -/
inductive Step where
  | checkout
  | toolchain (t : Toolchain)
  | cargo (c : Cargo)
  | run (script : String)
  | releasePlz (c : ReleaseCommand)
deriving DecidableEq, Repr

/-- Modelled from the spec: a named runtime-context field referenced by the
Condition Builder (`Context::github().ref_()` and
`Context::github().event_name()` in the gh-workflow crate, not under src/). -/
inductive CtxField where
  | githubRef
  | githubEventName
deriving DecidableEq, Repr

/-- Modelled from the spec: a boolean gating-expression tree over named
runtime-context predicates (`Context<bool>` in the gh-workflow crate, not
under src/): equality predicates against context fields plus the AND
combinator used by the assembler. -/
inductive Cond where
  | eqStr (f : CtxField) (s : String)
  | and (a b : Cond)
deriving DecidableEq, Repr

/-- Modelled from the spec: a concurrency policy (`Concurrency` in the
gh-workflow crate, not under src/): a group key expression plus a
cancel-in-progress flag. -/
structure Concurrency where
  group : String
  cancel_in_progress : Option Bool := none
deriving DecidableEq, Repr

def Concurrency.new (g : String) : Concurrency := { group := g }

def Concurrency.setCancelInProgress (c : Concurrency) (b : Bool) : Concurrency :=
  { c with cancel_in_progress := some b }

/-- Modelled from the spec: `Env::github()` (gh-workflow crate, not under
src/) injects the triggering platform's built-in token as an environment
binding. -/
def envGithub : String × String :=
  ("GITHUB_TOKEN", "$\x7b\x7b secrets.GITHUB_TOKEN \x7d\x7d")

/-- Modelled from the spec: `RustFlags::deny("warnings")` (gh-workflow
crate, not under src/) is the global environment binding that turns
compiler warnings into hard failures. -/
def RustFlags.deny (s : String) : String × String := ("RUSTFLAGS", "-D " ++ s)

/-- Modelled from the spec: a Job assembled by the Job Builder (gh-workflow
crate, not under src/): a name, an ordered step list, a permission set, an
optional gating condition, an optional concurrency policy, environment
bindings, and dependency references (recorded by name). -/
structure Job where
  name : String
  permissions : Option Permissions := none
  cond : Option Cond := none
  concurrency : Option Concurrency := none
  needs : List String := []
  env : List (String × String) := []
  steps : List Step := []
deriving DecidableEq, Repr

def Job.new (n : String) : Job := { name := n }

def Job.setPermissions (j : Job) (p : Permissions) : Job := { j with permissions := some p }

def Job.setCond (j : Job) (c : Cond) : Job := { j with cond := some c }

def Job.setConcurrency (j : Job) (c : Concurrency) : Job := { j with concurrency := some c }

def Job.add_step (j : Job) (s : Step) : Job := { j with steps := j.steps ++ [s] }

def Job.add_needs (j : Job) (dep : Job) : Job := { j with needs := j.needs ++ [dep.name] }

def Job.add_env (j : Job) (e : String × String) : Job := { j with env := j.env ++ [e] }

/-- Modelled from the spec: pull-request event subtypes (`PullRequestType`
in the gh-workflow crate, not under src/). -/
inductive PullRequestType where
  | opened
  | synchronize
  | reopened
deriving DecidableEq, Repr

/-- Modelled from the spec: the push trigger restricted to branches
(`Push` in the gh-workflow crate, not under src/). -/
structure Push where
  branches : List String := []
deriving DecidableEq, Repr

def Push.default : Push := {}

def Push.add_branch (p : Push) (b : String) : Push :=
  { p with branches := p.branches ++ [b] }

/-- Modelled from the spec: the pull-request trigger restricted to subtypes
and branches (`PullRequest` in the gh-workflow crate, not under src/). -/
structure PullRequest where
  types : List PullRequestType := []
  branches : List String := []
deriving DecidableEq, Repr

def PullRequest.default : PullRequest := {}

def PullRequest.add_type (p : PullRequest) (t : PullRequestType) : PullRequest :=
  { p with types := p.types ++ [t] }

def PullRequest.add_branch (p : PullRequest) (b : String) : PullRequest :=
  { p with branches := p.branches ++ [b] }

/-- Modelled from the spec: the trigger-event set (`Event` in the
gh-workflow crate, not under src/). -/
structure Event where
  push : Option Push := none
  pull_request : Option PullRequest := none
deriving DecidableEq, Repr

def Event.default : Event := {}

def Event.setPush (e : Event) (p : Push) : Event := { e with push := some p }

def Event.setPullRequest (e : Event) (p : PullRequest) : Event :=
  { e with pull_request := some p }

/-- Modelled from the spec: the assembled workflow document (`Workflow` in
the gh-workflow crate, imported as `GHWorkflow`, not under src/): name,
global environment bindings, trigger-event set, and the ordered job
mapping from job key to Job. -/
structure GHWorkflow where
  name : String
  env : List (String × String) := []
  on_event : Option Event := none
  jobs : List (String × Job) := []
deriving DecidableEq, Repr

def GHWorkflow.new (n : String) : GHWorkflow := { name := n }

def GHWorkflow.add_env (w : GHWorkflow) (e : String × String) : GHWorkflow :=
  { w with env := w.env ++ [e] }

def GHWorkflow.setOn (w : GHWorkflow) (e : Event) : GHWorkflow := { w with on_event := some e }

def GHWorkflow.add_job (w : GHWorkflow) (k : String) (j : Job) : GHWorkflow :=
  { w with jobs := w.jobs ++ [(k, j)] }

/-- The feature-flag configuration, from `struct Workflow` in
`crates/gh-workflow-tailcall/src/workflow.rs`. -/
structure Workflow where
  auto_release : Bool
  name : String
  benchmarks : Bool
  auto_fix : Bool
deriving DecidableEq, Repr

/-- From `impl Default for Workflow` in workflow.rs. -/
def Workflow.default : Workflow :=
  { auto_release := false, name := "CI", benchmarks := false, auto_fix := false }

/-- From `Workflow::build_and_test` in workflow.rs. -/
def Workflow.build_and_test (self : Workflow) : Job :=
  let job := Job.new "Build and Test"
    |>.setPermissions (Permissions.default.setContents Level.read)
    |>.add_step Step.checkout
    |>.add_step (Step.toolchain
        (Toolchain.default.add_stable.add_nightly.add_clippy.add_fmt))
    |>.add_step (Step.cargo
        (Cargo.new "test"
          |>.setArgs "--all-features --workspace"
          |>.setName "Cargo Test"))
    |>.add_step (Step.cargo
        (Cargo.new "fmt"
          |>.setNightly
          |>.setArgs "--check"
          |>.setName "Cargo Fmt"))
    |>.add_step (Step.cargo
        (Cargo.new "clippy"
          |>.setNightly
          |>.setArgs "--all-features --workspace -- -D warnings"
          |>.setName "Cargo Clippy"))
  if self.benchmarks then
    job.add_step (Step.cargo
      (Cargo.new "bench" |>.setArgs "--workspace" |>.setName "Cargo Bench"))
  else
    job

/-- The scripted bot-identity commit-and-push step body, verbatim from the
raw string literal in `lint_and_fmt_fix_job` in workflow.rs. -/
def gitFixScript : String :=
  "\n            git config user.name \"github-actions[bot]\"\n            git config user.email \"github-actions[bot]@users.noreply.github.com\"\n            git add .\n            git commit -m \"style: Applied automatic formatting fixes via gh-workflow-tailcall\"\n            git push\n        "

/-- From `lint_and_fmt_fix_job` in workflow.rs. -/
def lint_and_fmt_fix_job : Job :=
  Job.new "Auto Fix Lint and Fmt"
    |>.setPermissions (Permissions.default.setContents Level.write)
    |>.setCond (Cond.eqStr CtxField.githubEventName "pull_request")
    |>.add_step Step.checkout
    |>.add_step (Step.toolchain (Toolchain.default.add_stable.add_nightly.add_fmt))
    |>.add_step (Step.cargo
        (Cargo.new "fmt"
          |>.setNightly
          |>.setArgs ""
          |>.setName "Cargo Fmt (Fix)"))
    |>.add_step (Step.run gitFixScript)

/-- From `release_pr_job` in workflow.rs. -/
def release_pr_job (cond : Cond) (build : Job) (permissions : Permissions) : Job :=
  Job.new "Release PR"
    |>.setCond cond
    |>.setConcurrency
        ((Concurrency.new "release-$\x7b\x7bgithub.ref\x7d\x7d").setCancelInProgress false)
    |>.add_needs build
    |>.add_env envGithub
    |>.add_env ("CARGO_REGISTRY_TOKEN", "$\x7b\x7b secrets.CARGO_REGISTRY_TOKEN \x7d\x7d")
    |>.setPermissions permissions
    |>.add_step Step.checkout
    |>.add_step (Step.releasePlz ReleaseCommand.releasePR)

/-- From `release_job` in workflow.rs. -/
def release_job (cond : Cond) (build : Job) (permissions : Permissions) : Job :=
  Job.new "Release"
    |>.setCond cond
    |>.add_needs build
    |>.add_env envGithub
    |>.add_env ("CARGO_REGISTRY_TOKEN", "$\x7b\x7b secrets.CARGO_REGISTRY_TOKEN \x7d\x7d")
    |>.setPermissions permissions
    |>.add_step Step.checkout
    |>.add_step (Step.releasePlz ReleaseCommand.release)

/-- From `impl From<Workflow> for GHWorkflow` in workflow.rs. -/
def Workflow.toGHWorkflow (value : Workflow) : GHWorkflow :=
  let flags := RustFlags.deny "warnings"
  let event := Event.default
    |>.setPush (Push.default.add_branch "main")
    |>.setPullRequest
        (PullRequest.default
          |>.add_type PullRequestType.opened
          |>.add_type PullRequestType.synchronize
          |>.add_type PullRequestType.reopened
          |>.add_branch "main")
  let is_main := Cond.eqStr CtxField.githubRef "refs/heads/main"
  let is_push := Cond.eqStr CtxField.githubEventName "push"
  let cond := is_main.and is_push
  let build := value.build_and_test
  let workflow := GHWorkflow.new value.name
    |>.add_env flags
    |>.setOn event
    |>.add_job "build" build
  let workflow :=
    if value.auto_release then
      let permissions := Permissions.default
        |>.setPullRequests Level.write
        |>.setPackages Level.write
        |>.setContents Level.write
      let release := release_job cond build permissions
      let release_pr := release_pr_job cond build permissions
      workflow
        |>.add_job "release" release
        |>.add_job "release-pr" release_pr
    else workflow
  let workflow :=
    if value.auto_fix then
      let is_pr := Cond.eqStr CtxField.githubEventName "pull_request"
      let lint_and_fmt_fix := lint_and_fmt_fix_job
      workflow.add_job "auto-fix-lint-fmt" (lint_and_fmt_fix.setCond is_pr)
    else workflow
  workflow

/-- From `Workflow::to_github_workflow` in workflow.rs. -/
def Workflow.to_github_workflow (self : Workflow) : GHWorkflow :=
  self.toGHWorkflow

/-- From `Workflow::generate` in workflow.rs.  Modelled from the spec: the
downstream Serializer (`GHWorkflow::generate`, gh-workflow crate, not
under src/) renders the assembled workflow and may fail; it is modelled as
an arbitrary function from the assembled workflow to a result. -/
def Workflow.generate (self : Workflow)
    (serializer : GHWorkflow → Except String Unit) : Except String Unit :=
  serializer self.toGHWorkflow

/-! Spec-side definitions: values written out literally from the spec's
description, to be compared against what the assembler produces. -/

/-- The benchmark step as the spec describes it: a cargo `bench` invocation
over the workspace, displayed as "Cargo Bench". -/
def benchStep : Step :=
  Step.cargo { cmd := "bench", args := "--workspace", name := some "Cargo Bench" }

/-- The release-gate condition as the spec describes it: "current ref equals
the default branch (refs/heads/main)" AND "triggering event equals push". -/
def releaseGate : Cond :=
  (Cond.eqStr CtxField.githubRef "refs/heads/main").and
    (Cond.eqStr CtxField.githubEventName "push")

/-- The trigger-event set as the spec describes it: push restricted to
branch main, and pull-request of subtypes opened/synchronized/reopened
restricted to branch main. -/
def mainTriggerEvents : Event :=
  { push := some { branches := ["main"] },
    pull_request := some
      { types := [PullRequestType.opened, PullRequestType.synchronize,
                  PullRequestType.reopened],
        branches := ["main"] } }

/-- The five unconditional steps of the Build-and-Test job as the spec
describes them: checkout, toolchain setup (stable + nightly + lint + format
components), then test, format-check and lint-check invocations. -/
def buildBaseSteps : List Step :=
  [Step.checkout,
   Step.toolchain { stable := true, nightly := true, clippy := true, fmt := true },
   Step.cargo { cmd := "test", args := "--all-features --workspace",
                name := some "Cargo Test" },
   Step.cargo { cmd := "fmt", args := "--check", name := some "Cargo Fmt",
                nightly := true },
   Step.cargo { cmd := "clippy", args := "--all-features --workspace -- -D warnings",
                name := some "Cargo Clippy", nightly := true }]

/-- Detail of the two release jobs required by claim C2, stated of a job
mapping together with the configuration's auto-release flag. -/
def releaseJobsDetail (jobs : List (String × Job)) (autoRel : Bool) : Prop :=
  autoRel = true →
    ∃ r rp, jobs.lookup "release" = some r ∧
      jobs.lookup "release-pr" = some rp ∧
      r.name = "Release" ∧ rp.name = "Release PR" ∧
      r.needs = ["Build and Test"] ∧ rp.needs = ["Build and Test"] ∧
      r.cond = some releaseGate ∧ rp.cond = some releaseGate ∧
      r.permissions = rp.permissions ∧
      r.permissions = some { contents := some Level.write,
                             pull_requests := some Level.write,
                             packages := some Level.write } ∧
      r.concurrency = none ∧
      ∃ c, rp.concurrency = some c ∧ c.cancel_in_progress = some false

/-- Detail of the auto-fix job required by claim C3: present under key
`auto-fix-lint-fmt`, gated on the pull-request event, write permission on
contents, no dependency edges, and exactly the four described steps, the
last being the scripted bot commit-and-push whose script mentions the bot
identity configuration, staging, commit and push commands. -/
def autoFixJobDetail (jobs : List (String × Job)) : Prop :=
  ∃ j, jobs.lookup "auto-fix-lint-fmt" = some j ∧
    j.name = "Auto Fix Lint and Fmt" ∧
    j.cond = some (Cond.eqStr CtxField.githubEventName "pull_request") ∧
    j.permissions = some { contents := some Level.write, pull_requests := none,
                           packages := none } ∧
    j.needs = [] ∧
    ∃ script,
      j.steps =
        [Step.checkout,
         Step.toolchain { stable := true, nightly := true, clippy := false,
                          fmt := true },
         Step.cargo { cmd := "fmt", args := "", name := some "Cargo Fmt (Fix)",
                      nightly := true },
         Step.run script] ∧
      "git config user.name \"github-actions[bot]\"".data <:+: script.data ∧
      "git add .".data <:+: script.data ∧
      "git commit".data <:+: script.data ∧
      "git push".data <:+: script.data

/-- Usage of the release gate required by claim C4: it is absent from the
Build-and-Test job, any job gated by it is one of the two release jobs
(hence only exists when auto-release is on), and when auto-release is on
both release jobs are gated by it. -/
def releaseGateUsage (jobs : List (String × Job)) (autoRel : Bool) : Prop :=
  (∃ j, jobs.lookup "build" = some j ∧ j.cond = none) ∧
  (∀ p ∈ jobs, p.2.cond = some releaseGate →
    autoRel = true ∧ (p.1 = "release" ∨ p.1 = "release-pr")) ∧
  (autoRel = true →
    ∃ r rp, jobs.lookup "release" = some r ∧
      jobs.lookup "release-pr" = some rp ∧
      r.cond = some releaseGate ∧ rp.cond = some releaseGate)

/-- Boolean checker for claim C6: walking the job mapping in assembly
order, every dependency reference of every job names a job defined
strictly earlier. -/
def needsDefinedEarlier (seen : List String) : List (String × Job) → Bool
  | [] => true
  | (_, j) :: rest =>
      (j.needs.all fun d => seen.contains d) &&
        needsDefinedEarlier (seen ++ [j.name]) rest

/-- A workflow document with the build job's steps blanked out; two
documents agree on this view exactly when they are identical everywhere
outside the Build-and-Test step list (claim C10). -/
def eraseBuildSteps (w : GHWorkflow) : GHWorkflow :=
  { w with jobs := w.jobs.map fun p =>
      if p.1 = "build" then (p.1, { p.2 with steps := [] }) else p }

/-- Frame property of the benchmarks flag (claim C10): the two documents
are identical outside the build job's step list, and each build step list
is the common base with the benchmark step appended exactly when the
respective flag is set. -/
def benchFrame (w₁ w₂ : GHWorkflow) (b₁ b₂ : Bool) : Prop :=
  eraseBuildSteps w₁ = eraseBuildSteps w₂ ∧
  ∃ j₁ j₂, w₁.jobs.lookup "build" = some j₁ ∧
    w₂.jobs.lookup "build" = some j₂ ∧
    j₁.steps = buildBaseSteps ++ (if b₁ then [benchStep] else []) ∧
    j₂.steps = buildBaseSteps ++ (if b₂ then [benchStep] else [])

/-- The job mapping produced by the assembler as a function of the three
boolean flags alone; the configuration's name never influences it. -/
def jobsOf (ar b af : Bool) : List (String × Job) :=
  (Workflow.mk ar "CI" b af).toGHWorkflow.jobs

/-- The assembled job mapping depends only on the three boolean flags. -/
theorem toGHWorkflow_jobs_eq (cfg : Workflow) :
    cfg.toGHWorkflow.jobs = jobsOf cfg.auto_release cfg.benchmarks cfg.auto_fix := by
  rcases cfg with ⟨ar, n, b, af⟩
  cases ar <;> cases b <;> cases af <;> rfl

/-! Claims. -/

/-- Claim C1: for every Configuration, the assembled workflow contains the
Build-and-Test job (under mapping key `build`, named "Build and Test");
its first step is the checkout step, and the benchmark step ("Cargo
Bench") is its last step if and only if the `benchmarks` flag is true. -/
theorem build_job_first_checkout_last_bench_iff (cfg : Workflow) :
    ∃ j, cfg.toGHWorkflow.jobs.lookup "build" = some j ∧
      j.name = "Build and Test" ∧
      j.steps.head? = some Step.checkout ∧
      (cfg.benchmarks = true ↔ j.steps.getLast? = some benchStep) := by
  rw [toGHWorkflow_jobs_eq]
  rcases cfg with ⟨ar, n, b, af⟩
  dsimp only
  cases ar <;> cases b <;> cases af <;>
    exact ⟨_, rfl, rfl, rfl, by decide⟩

/-- Claim C2: the job mapping contains the "Release" and "Release PR" jobs
if and only if `auto_release` is true; when present both depend on the
Build-and-Test job, both are gated by the release-gate condition, both
carry identical permission grants (write on pull-requests, packages and
contents), and only "Release PR" carries a concurrency policy, whose
cancel-in-progress flag is false. -/
theorem release_jobs_iff_auto_release (cfg : Workflow) :
    (cfg.toGHWorkflow.jobs.lookup "release").isSome = cfg.auto_release ∧
      (cfg.toGHWorkflow.jobs.lookup "release-pr").isSome = cfg.auto_release ∧
      releaseJobsDetail cfg.toGHWorkflow.jobs cfg.auto_release := by
  rw [toGHWorkflow_jobs_eq]
  rcases cfg with ⟨ar, n, b, af⟩
  dsimp only
  cases ar <;> cases b <;> cases af <;> refine ⟨rfl, rfl, ?_⟩ <;> intro h
  all_goals first
    | exact absurd h (by decide)
    | exact ⟨_, _, rfl, rfl, by decide⟩

/-- Claim C2 witness: instantiation at a configuration with
`auto_release = true`. -/
theorem release_jobs_iff_auto_release_witness :
    ((Workflow.mk true "CI" false false).toGHWorkflow.jobs.lookup "release").isSome
        = (Workflow.mk true "CI" false false).auto_release ∧
      ((Workflow.mk true "CI" false false).toGHWorkflow.jobs.lookup "release-pr").isSome
        = (Workflow.mk true "CI" false false).auto_release ∧
      releaseJobsDetail (Workflow.mk true "CI" false false).toGHWorkflow.jobs
        (Workflow.mk true "CI" false false).auto_release :=
  release_jobs_iff_auto_release (Workflow.mk true "CI" false false)

set_option maxRecDepth 8000 in
/-- Claim C3: for every Configuration with `auto_fix` true, the workflow
contains the "Auto Fix Lint and Fmt" job, gated on the pull-request event,
granted write permission on contents, with no dependency edge, and whose
ordered steps are checkout, toolchain setup (stable + nightly + format
component), a formatting step in fix mode (empty argument string, no
check-only flag), then the scripted bot-identity commit-and-push step. -/
theorem auto_fix_job_spec (cfg : Workflow) (h : cfg.auto_fix = true) :
    autoFixJobDetail cfg.toGHWorkflow.jobs := by
  rw [toGHWorkflow_jobs_eq]
  rcases cfg with ⟨ar, n, b, af⟩
  dsimp only at h ⊢
  subst h
  cases ar <;> cases b <;>
    exact ⟨_, rfl, rfl, rfl, rfl, rfl, gitFixScript, rfl,
      by decide, by decide, by decide, by decide⟩

/-- Claim C3 witness: instantiation at a configuration with
`auto_fix = true`. -/
theorem auto_fix_job_spec_witness :
    (Workflow.mk false "CI" false true).auto_fix = true ∧
      autoFixJobDetail (Workflow.mk false "CI" false true).toGHWorkflow.jobs :=
  ⟨rfl, auto_fix_job_spec (Workflow.mk false "CI" false true) rfl⟩

/-- Claim C4: the release-gate condition is the conjunction "current ref
equals refs/heads/main" AND "triggering event equals push"; it is not
attached to the Build-and-Test job, and it gates exactly the jobs created
when `auto_release` is true. -/
theorem release_gate_shape_and_usage (cfg : Workflow) :
    releaseGateUsage cfg.toGHWorkflow.jobs cfg.auto_release := by
  rw [toGHWorkflow_jobs_eq]
  rcases cfg with ⟨ar, n, b, af⟩
  dsimp only
  cases ar <;> cases b <;> cases af <;>
    refine ⟨⟨_, rfl, rfl⟩, by decide, ?_⟩ <;> intro h
  all_goals first
    | exact absurd h (by decide)
    | exact ⟨_, _, rfl, rfl, rfl, rfl⟩

/-- Claim C4 witness: instantiation at a configuration with
`auto_release = true`. -/
theorem release_gate_shape_and_usage_witness :
    releaseGateUsage (Workflow.mk true "CI" false false).toGHWorkflow.jobs
      (Workflow.mk true "CI" false false).auto_release :=
  release_gate_shape_and_usage (Workflow.mk true "CI" false false)

/-- Claim C5: every assembled workflow declares exactly the trigger-event
set {push restricted to branch main, pull-request of subtypes
opened/synchronized/reopened restricted to branch main} and the single
global environment binding RUSTFLAGS = "-D warnings". -/
theorem trigger_events_and_global_env (cfg : Workflow) :
    cfg.toGHWorkflow.on_event = some mainTriggerEvents ∧
      cfg.toGHWorkflow.env = [("RUSTFLAGS", "-D warnings")] := by
  rcases cfg with ⟨ar, n, b, af⟩
  cases ar <;> cases b <;> cases af <;> exact ⟨rfl, rfl⟩

/-- Claim C6: in every assembled workflow, job mapping keys are unique, job
names are unique, every dependency reference of every job names a job
defined strictly earlier in assembly order, and every dependency reference
resolves to a job present in the mapping. -/
theorem job_mapping_wellformed (cfg : Workflow) :
    (cfg.toGHWorkflow.jobs.map Prod.fst).Nodup ∧
      (cfg.toGHWorkflow.jobs.map fun p => p.2.name).Nodup ∧
      needsDefinedEarlier [] cfg.toGHWorkflow.jobs = true ∧
      ∀ p ∈ cfg.toGHWorkflow.jobs, ∀ d ∈ p.2.needs,
        ∃ q ∈ cfg.toGHWorkflow.jobs, q.2.name = d := by
  rw [toGHWorkflow_jobs_eq]
  rcases cfg with ⟨ar, n, b, af⟩
  dsimp only
  cases ar <;> cases b <;> cases af <;>
    exact ⟨by decide, by decide, rfl, by decide⟩

/-- Claim C7: assembly is deterministic: two structurally identical
Configuration values yield structurally identical workflow documents, both
through the direct conversion and through `to_github_workflow`. -/
theorem assembly_deterministic (a b : Workflow) (h : a = b) :
    a.toGHWorkflow = b.toGHWorkflow ∧
      a.to_github_workflow = b.to_github_workflow := by
  subst h; exact ⟨rfl, rfl⟩

/-- Claim C7 witness: instantiation at the default configuration. -/
theorem assembly_deterministic_witness :
    Workflow.default = Workflow.default ∧
      Workflow.default.toGHWorkflow = Workflow.default.toGHWorkflow ∧
      Workflow.default.to_github_workflow = Workflow.default.to_github_workflow :=
  ⟨rfl, assembly_deterministic Workflow.default Workflow.default rfl⟩

/-- Claim C8: the public entry point returns exactly the serializer's
result on the fully assembled workflow: assembly itself never fails, and a
failure of the overall result is present exactly when the downstream
serializer fails on that assembled workflow. -/
theorem generate_all_or_nothing (cfg : Workflow)
    (serializer : GHWorkflow → Except String Unit) :
    cfg.generate serializer = serializer cfg.toGHWorkflow ∧
      ∀ e, (cfg.generate serializer = Except.error e ↔
        serializer cfg.toGHWorkflow = Except.error e) :=
  ⟨rfl, fun _ => Iff.rfl⟩

/-- Claim C9: the default Configuration has `auto_release = false`,
`name = "CI"`, `benchmarks = false` and `auto_fix = false`. -/
theorem default_configuration :
    Workflow.default.auto_release = false ∧
      Workflow.default.name = "CI" ∧
      Workflow.default.benchmarks = false ∧
      Workflow.default.auto_fix = false :=
  ⟨rfl, rfl, rfl, rfl⟩

/-- Claim C10: two Configurations that differ only in the `benchmarks` flag
assemble to workflows that are identical outside the Build-and-Test job's
step list, and each build step list is the common five-step base with the
benchmark step appended exactly when the respective flag is set. -/
theorem benchmarks_frame (a b : Workflow) (h₁ : a.auto_release = b.auto_release)
    (h₂ : a.name = b.name) (h₃ : a.auto_fix = b.auto_fix) :
    benchFrame a.toGHWorkflow b.toGHWorkflow a.benchmarks b.benchmarks := by
  rcases a with ⟨ar, n, ab, af⟩
  rcases b with ⟨ar', n', bb, af'⟩
  change ar = ar' at h₁
  change n = n' at h₂
  change af = af' at h₃
  subst h₁; subst h₂; subst h₃
  cases ar <;> cases af <;> cases ab <;> cases bb <;>
    exact ⟨rfl, _, _, rfl, rfl, rfl, rfl⟩

/-- Claim C10 witness: instantiation at two configurations differing only
in the `benchmarks` flag. -/
theorem benchmarks_frame_witness :
    (Workflow.mk false "CI" true false).auto_release
        = (Workflow.mk false "CI" false false).auto_release ∧
      (Workflow.mk false "CI" true false).name
        = (Workflow.mk false "CI" false false).name ∧
      (Workflow.mk false "CI" true false).auto_fix
        = (Workflow.mk false "CI" false false).auto_fix ∧
      benchFrame (Workflow.mk false "CI" true false).toGHWorkflow
        (Workflow.mk false "CI" false false).toGHWorkflow
        (Workflow.mk false "CI" true false).benchmarks
        (Workflow.mk false "CI" false false).benchmarks :=
  ⟨rfl, rfl, rfl,
    benchmarks_frame (Workflow.mk false "CI" true false)
      (Workflow.mk false "CI" false false) rfl rfl rfl⟩

end GhTailcall
